import Mathlib

/-!
Shallow embedding of the vx0net daemon (Rust) for specification checking.

Conventions used throughout:
* Rust `String`/`&str` values are modelled as `List Char` (`RStr`).
* Machine integers (`u8`, `u16`, `u32`, `u64`, `usize`) are modelled as `Nat`;
  where wrap-around is reachable from untrusted input (the `u32` preference
  sum in `evaluate_route`) the additions are taken modulo `2 ^ 32`.
* `HashMap` fields are modelled as association lists (`List (key × value)`);
  insertion replaces the first binding of the key, mirroring `HashMap::insert`.
* Fallible Rust functions returning `Result` are modelled with `Except`;
  `&mut self` methods are modelled by explicit state passing, and wall-clock
  timestamps (`chrono::Utc::now()`) become an explicit `now : Nat` argument.
-/

namespace Vx0

/-- Rust strings, modelled as lists of characters. -/
abbrev RStr := List Char

/-- Model of Rust `str::ends_with`. -/
def rstrEndsWith (s suffixStr : RStr) : Bool :=
  suffixStr.isSuffixOf s

/-- `std::net::IpAddr`: a v4 or v6 address.  The address bits are a `Nat`
(32-bit for v4, 128-bit for v6); only equality and prefix containment are
used by the embedded code. -/
inductive IpAddr where
  | V4 : Nat → IpAddr
  | V6 : Nat → IpAddr
  deriving DecidableEq, Repr

/-- `ipnet::Ipv4Net`: an address together with a prefix length (≤ 32).
Equality is structural on (addr, prefix length), as derived in the crate. -/
structure Ipv4Net where
  addr : Nat
  prefix_len : Nat
  deriving DecidableEq, Repr

/-- `ipnet::Ipv6Net`. -/
structure Ipv6Net where
  addr : Nat
  prefix_len : Nat
  deriving DecidableEq, Repr

/-- `ipnet::IpNet`: either family of CIDR network. -/
inductive IpNet where
  | V4 : Ipv4Net → IpNet
  | V6 : Ipv6Net → IpNet
  deriving DecidableEq, Repr

namespace IpNet

/-- `IpNet::prefix_len`. -/
def prefix_len : IpNet → Nat
  | V4 n => n.prefix_len
  | V6 n => n.prefix_len

/-- The network part of an address under a prefix length: the low
`width - len` bits are cleared (by integer division). -/
def truncate (width len addr : Nat) : Nat :=
  addr / 2 ^ (width - len)

/-- `IpNet::contains::<IpAddr>`: true when the address lies in the network.
Addresses of the other family are never contained. -/
def contains : IpNet → IpAddr → Bool
  | V4 n, IpAddr.V4 a => truncate 32 n.prefix_len a == truncate 32 n.prefix_len n.addr
  | V6 n, IpAddr.V6 a => truncate 128 n.prefix_len a == truncate 128 n.prefix_len n.addr
  | _, _ => false

end IpNet

/-- `NodeTier` (src/node/mod.rs). -/
inductive NodeTier where
  | Backbone
  | Regional
  | Edge
  deriving DecidableEq, Repr

/-- `RoutePolicy` (src/node/mod.rs). -/
inductive RoutePolicy where
  | FullTable
  | RegionalFilter
  | DefaultOnly
  deriving DecidableEq, Repr

namespace NodeTier

/-- `NodeTier::get_asn_range`. -/
def get_asn_range : NodeTier → Nat × Nat
  | Backbone => (65000, 65099)
  | Regional => (65100, 65999)
  | Edge => (66000, 69999)

/-- `NodeTier::max_peers`. -/
def max_peers : NodeTier → Nat
  | Backbone => 50
  | Regional => 20
  | Edge => 5

/-- `NodeTier::can_peer_with`: the peering matrix. -/
def can_peer_with : NodeTier → NodeTier → Bool
  | Backbone, Backbone => true
  | Backbone, Regional => true
  | Regional, Backbone => true
  | Regional, Regional => true
  | Regional, Edge => true
  | Edge, Regional => true
  | _, _ => false

/-- `NodeTier::route_advertisement_policy`. -/
def route_advertisement_policy : NodeTier → RoutePolicy
  | Backbone => RoutePolicy.FullTable
  | Regional => RoutePolicy.RegionalFilter
  | Edge => RoutePolicy.DefaultOnly

end NodeTier

/-! ## BGP data model (src/network/bgp/mod.rs) -/

/-- `BGPOrigin`. -/
inductive BGPOrigin where
  | IGP
  | EGP
  | Incomplete
  deriving DecidableEq, Repr

/-- `Community`: a (asn, value) tag. -/
structure Community where
  asn : Nat
  value : Nat
  deriving DecidableEq, Repr

/-- `RouteEntry`.  `timestamp` (a `chrono` instant) is modelled as a `Nat`. -/
structure RouteEntry where
  network : IpNet
  next_hop : IpAddr
  as_path : List Nat
  origin : BGPOrigin
  local_pref : Nat
  med : Nat
  communities : List Community
  timestamp : Nat
  deriving DecidableEq, Repr

/-- `RouteTable`: `routes` is a `HashMap<IpNet, RouteEntry>` modelled as an
association list, `version` a `u64` counter (wrap-around needs `2 ^ 64`
increments and is unreachable, so it is kept as a plain `Nat`). -/
structure RouteTable where
  routes : List (IpNet × RouteEntry)
  version : Nat
  deriving DecidableEq, Repr

/-- `HashMap::get` on the association list: first binding of the key. -/
def lookupRoute : List (IpNet × RouteEntry) → IpNet → Option RouteEntry
  | [], _ => none
  | (k, v) :: rest, network => if k = network then some v else lookupRoute rest network

/-- `HashMap::insert` on the association list: replace the first binding of
the key, or append a fresh binding. -/
def insertRoute : List (IpNet × RouteEntry) → IpNet → RouteEntry → List (IpNet × RouteEntry)
  | [], k, v => [(k, v)]
  | (k0, v0) :: rest, k, v =>
      if k0 = k then (k, v) :: rest else (k0, v0) :: insertRoute rest k v

/-- `HashMap::remove` on the association list: drop the first binding of the
key and return its value. -/
def removeRoute : List (IpNet × RouteEntry) → IpNet → Option RouteEntry × List (IpNet × RouteEntry)
  | [], _ => (none, [])
  | (k0, v0) :: rest, k =>
      if k0 = k then (some v0, rest)
      else
        let r := removeRoute rest k
        (r.1, (k0, v0) :: r.2)

/-- `BGPError` (src/network/bgp/mod.rs).  The `IO` and `Serialization`
variants wrap foreign error types and carry no modelled payload; the Lean
constructor for the former is named `IOError`. -/
inductive BGPError where
  | Connection : RStr → BGPError
  | Protocol : RStr → BGPError
  | Configuration : RStr → BGPError
  | Route : RStr → BGPError
  | IOError : BGPError
  | Serialization : BGPError
  deriving DecidableEq, Repr

namespace RouteTable

/-- `RouteTable::new`. -/
def new : RouteTable := { routes := [], version := 0 }

/-- `RouteTable::add_route` (src/network/bgp/mod.rs lines 218-222): insert
or replace by prefix, increment the version, always `Ok`. -/
def add_route (t : RouteTable) (route : RouteEntry) : Except BGPError Unit × RouteTable :=
  (Except.ok (),
   { routes := insertRoute t.routes route.network route, version := t.version + 1 })

/-- `RouteTable::remove_route` (src/network/bgp/mod.rs lines 224-231):
remove and return the prior entry if present, incrementing the version;
otherwise `None` and no change. -/
def remove_route (t : RouteTable) (network : IpNet) : Option RouteEntry × RouteTable :=
  let r := removeRoute t.routes network
  match r.1 with
  | some route => (some route, { routes := r.2, version := t.version + 1 })
  | none => (none, t)

/-- `RouteTable::get_route`. -/
def get_route (t : RouteTable) (network : IpNet) : Option RouteEntry :=
  lookupRoute t.routes network

/-- The loop body of `RouteTable::find_best_route` (src/network/bgp/routing.rs
lines 183-199), with the `(best_route, best_prefix_len)` accumulator made
explicit. -/
def find_best_route_loop (destination : IpAddr) :
    List (IpNet × RouteEntry) → Option RouteEntry × Nat → Option RouteEntry × Nat
  | [], acc => acc
  | (network, route) :: rest, acc =>
      if network.contains destination then
        if network.prefix_len > acc.2 then
          find_best_route_loop destination rest (some route, network.prefix_len)
        else
          find_best_route_loop destination rest acc
      else
        find_best_route_loop destination rest acc

/-- `RouteTable::find_best_route`: longest-prefix match, starting from
`best_route = None`, `best_prefix_len = 0`. -/
def find_best_route (t : RouteTable) (destination : IpAddr) : Option RouteEntry :=
  (find_best_route_loop destination t.routes (none, 0)).1

end RouteTable

/-! ## Routing policy (src/network/bgp/routing.rs) -/

/-- `RoutingPolicy`. -/
structure RoutingPolicy where
  local_asn : Nat
  node_tier : NodeTier
  route_policy : RoutePolicy
  default_local_pref : Nat
  default_med : Nat
  deriving DecidableEq, Repr

namespace RoutingPolicy

/-- `RoutingPolicy::new`. -/
def new (local_asn : Nat) (node_tier : NodeTier) : RoutingPolicy :=
  { local_asn := local_asn
    node_tier := node_tier
    route_policy := node_tier.route_advertisement_policy
    default_local_pref := 100
    default_med := 0 }

/-- `RoutingPolicy::asn_to_tier`. -/
def asn_to_tier (asn : Nat) : NodeTier :=
  if 65000 ≤ asn ∧ asn ≤ 65099 then NodeTier.Backbone
  else if 65100 ≤ asn ∧ asn ≤ 65999 then NodeTier.Regional
  else if 66000 ≤ asn ∧ asn ≤ 69999 then NodeTier.Edge
  else NodeTier.Edge

/-- The literal `"0.0.0.0/0".parse()`: the v4 default network. -/
def defaultNet : IpNet := IpNet.V4 { addr := 0, prefix_len := 0 }

/-- The literal `"10.0.0.0/8".parse()`: the VX0 default network. -/
def vx0DefaultNet : IpNet := IpNet.V4 { addr := 10 * 2 ^ 24, prefix_len := 8 }

/-- `RoutingPolicy::is_default_route`. -/
def is_default_route (_p : RoutingPolicy) (route : RouteEntry) : Bool :=
  route.network == defaultNet || route.network == vx0DefaultNet

/-- `RoutingPolicy::is_local_route`. -/
def is_local_route (p : RoutingPolicy) (route : RouteEntry) : Bool :=
  route.as_path.head? == some p.local_asn

/-- `RoutingPolicy::is_local_announcement`. -/
def is_local_announcement (_p : RoutingPolicy) (route : RouteEntry) (peer_asn : Nat) : Bool :=
  route.as_path == [peer_asn]

/-- `RoutingPolicy::is_local_service_route`. -/
def is_local_service_route (_p : RoutingPolicy) (route : RouteEntry) : Bool :=
  route.network.prefix_len ≥ 24

/-- `RoutingPolicy::is_aggregatable_route`. -/
def is_aggregatable_route (_p : RoutingPolicy) (route : RouteEntry) : Bool :=
  route.network.prefix_len ≤ 16

/-- `RoutingPolicy::is_reachable_service`. -/
def is_reachable_service (_p : RoutingPolicy) (route : RouteEntry) : Bool :=
  route.network.prefix_len ≥ 24 && route.local_pref ≥ 100

/-- `RoutingPolicy::has_asn_loop`. -/
def has_asn_loop (_p : RoutingPolicy) (route : RouteEntry) (peer_asn : Nat) : Bool :=
  route.as_path.contains peer_asn

/-- `RoutingPolicy::apply_regional_filter`. -/
def apply_regional_filter (p : RoutingPolicy) (route : RouteEntry) (peer_tier : NodeTier) : Bool :=
  match peer_tier with
  | NodeTier.Backbone => true
  | NodeTier.Regional => route.as_path.length ≤ 3
  | NodeTier.Edge => p.is_local_service_route route

/-- `RoutingPolicy::apply_regional_advertisement_filter`. -/
def apply_regional_advertisement_filter (p : RoutingPolicy) (route : RouteEntry)
    (peer_tier : NodeTier) : Bool :=
  match peer_tier with
  | NodeTier.Backbone => p.is_aggregatable_route route
  | NodeTier.Regional => !p.has_asn_loop route 0
  | NodeTier.Edge => p.is_default_route route || p.is_reachable_service route

/-- `RoutingPolicy::should_accept_route` (src/network/bgp/routing.rs
lines 28-45). -/
def should_accept_route (p : RoutingPolicy) (route : RouteEntry) (peer_asn : Nat) : Bool :=
  let peer_tier := asn_to_tier peer_asn
  match p.route_policy with
  | RoutePolicy.FullTable => true
  | RoutePolicy.RegionalFilter => p.apply_regional_filter route peer_tier
  | RoutePolicy.DefaultOnly =>
      p.is_default_route route || p.is_local_announcement route peer_asn

/-- `RoutingPolicy::should_advertise_route`. -/
def should_advertise_route (p : RoutingPolicy) (route : RouteEntry) (peer_asn : Nat) : Bool :=
  let peer_tier := asn_to_tier peer_asn
  match p.route_policy with
  | RoutePolicy.FullTable => !p.has_asn_loop route peer_asn
  | RoutePolicy.RegionalFilter => p.apply_regional_advertisement_filter route peer_tier
  | RoutePolicy.DefaultOnly => p.is_local_route route

/-- `RoutingPolicy::evaluate_route` (src/network/bgp/routing.rs lines
139-160).  `preference` is a `u32`; each `+=` is taken modulo `2 ^ 32`. -/
def evaluate_route (_p : RoutingPolicy) (route : RouteEntry) : Nat :=
  let preference := 0
  let preference := (preference + route.local_pref) % 2 ^ 32
  let preference :=
    if route.as_path.isEmpty then preference
    else (preference + 100 / route.as_path.length) % 2 ^ 32
  match route.origin with
  | BGPOrigin.IGP => (preference + 10) % 2 ^ 32
  | BGPOrigin.EGP => (preference + 5) % 2 ^ 32
  | BGPOrigin.Incomplete => (preference + 0) % 2 ^ 32

end RoutingPolicy

/-! ## Node orchestrator (src/node/mod.rs) -/

/-- `ConnectionStatus`. -/
inductive ConnectionStatus where
  | Disconnected
  | Connecting
  | Connected
  | Authenticated
  | Failed
  deriving DecidableEq, Repr

/-- `ConnectionMetrics`.  `packet_loss` is an `f32` in the source; it is
unused by every embedded operation and is modelled as an opaque `Nat`
carrying its bit pattern. -/
structure ConnectionMetrics where
  latency_ms : Nat
  packet_loss : Nat
  bytes_sent : Nat
  bytes_received : Nat
  routes_advertised : Nat
  routes_received : Nat
  deriving DecidableEq, Repr

/-- `PeerConnection`.  `peer_id` is a `Uuid`, modelled as a `Nat`. -/
structure PeerConnection where
  peer_id : Nat
  peer_asn : Nat
  peer_addr : IpAddr
  status : ConnectionStatus
  metrics : ConnectionMetrics
  last_seen : Nat
  deriving DecidableEq, Repr

/-- `NodeError`.  The `IO` and `Serialization` variants wrap foreign error
types; the Lean constructor for the former is named `IOError`. -/
inductive NodeError where
  | Config : RStr → NodeError
  | Network : RStr → NodeError
  | BGP : RStr → NodeError
  | IKE : RStr → NodeError
  | Service : RStr → NodeError
  | IOError : NodeError
  | Serialization : NodeError
  deriving DecidableEq, Repr

/-- `Vx0Node`, restricted to the fields read or written by the embedded
operations (`tier` and the peer map).  The remaining fields (config,
geographic location, addresses, hostname, services, tunnel manager) are
not consulted by `add_peer` and are omitted from the model. -/
structure Vx0Node where
  node_id : Nat
  asn : Nat
  tier : NodeTier
  peers : List (Nat × PeerConnection)
  deriving DecidableEq, Repr

/-- Debug rendering of a `NodeTier` (`{:?}`), used in error messages. -/
def tierDebug : NodeTier → RStr
  | NodeTier.Backbone => ("Backbone").data
  | NodeTier.Regional => ("Regional").data
  | NodeTier.Edge => ("Edge").data

/-- `HashMap::insert` on the peer map. -/
def insertPeer : List (Nat × PeerConnection) → Nat → PeerConnection → List (Nat × PeerConnection)
  | [], k, v => [(k, v)]
  | (k0, v0) :: rest, k, v =>
      if k0 = k then (k, v) :: rest else (k0, v0) :: insertPeer rest k v

namespace Vx0Node

/-- `Vx0Node::asn_to_tier`. -/
def asn_to_tier (asn : Nat) : NodeTier :=
  if 65000 ≤ asn ∧ asn ≤ 65099 then NodeTier.Backbone
  else if 65100 ≤ asn ∧ asn ≤ 65999 then NodeTier.Regional
  else if 66000 ≤ asn ∧ asn ≤ 69999 then NodeTier.Edge
  else NodeTier.Edge

/-- `Vx0Node::get_peer_count`. -/
def get_peer_count (n : Vx0Node) : Nat :=
  n.peers.length

/-- `Vx0Node::add_peer` (src/node/mod.rs lines 251-286): reject when the
peer count has reached the tier limit or when the peering matrix forbids
the tier pair; otherwise insert into the peer map.  The error strings
reproduce the two `format!` messages up to the numeric interpolations,
which are rendered with `Nat.repr`. -/
def add_peer (n : Vx0Node) (peer : PeerConnection) : Except NodeError Unit × Vx0Node :=
  let max_peers := n.tier.max_peers
  let current_peers := n.get_peer_count
  if current_peers ≥ max_peers then
    (Except.error (NodeError.Network
      (("Maximum peer limit reached for ").data ++ tierDebug n.tier ++ (" tier (").data ++
        (Nat.repr current_peers).data ++ ("/").data ++ (Nat.repr max_peers).data ++ (")").data)),
     n)
  else
    let peer_tier := asn_to_tier peer.peer_asn
    if !(n.tier.can_peer_with peer_tier) then
      (Except.error (NodeError.Network
        (tierDebug n.tier ++ (" nodes cannot peer with ").data ++ tierDebug peer_tier ++
          (" nodes").data)),
       n)
    else
      (Except.ok (), { n with peers := insertPeer n.peers peer.peer_id peer })

end Vx0Node

/-! ## DNS (src/network/dns/mod.rs, src/network/dns/resolver.rs) -/

/-- Dotted-quad shorthand for a v4 `IpAddr`. -/
def v4 (a b c d : Nat) : IpAddr :=
  IpAddr.V4 (((a * 256 + b) * 256 + c) * 256 + d)

/-- The literal `".vx0"`. -/
def dotVx0 : RStr := (".vx0").data

/-- The literal `"vx0.network"`. -/
def vx0NetworkName : RStr := ("vx0.network").data

/-- `RecordType`. -/
inductive RecordType where
  | A
  | AAAA
  | CNAME
  | MX
  | TXT
  | SRV
  | PTR
  deriving DecidableEq, Repr

/-- `DNSRecord`. -/
structure DNSRecord where
  name : RStr
  record_type : RecordType
  data : RStr
  ttl : Nat
  timestamp : Nat
  deriving DecidableEq, Repr

/-- `SOARecord`. -/
structure SOARecord where
  primary : RStr
  email : RStr
  serial : Nat
  refresh : Nat
  retry : Nat
  expire : Nat
  minimum : Nat
  deriving DecidableEq, Repr

/-- `DNSZone`. -/
structure DNSZone where
  name : RStr
  soa : SOARecord
  ns_records : List RStr
  deriving DecidableEq, Repr

/-- `Vx0DNS`: both `HashMap`s modelled as association lists. -/
structure Vx0DNS where
  zones : List (RStr × DNSZone)
  records : List (RStr × List DNSRecord)
  deriving DecidableEq, Repr

/-- `DNSError`.  The `IO` variant wraps a foreign error type; its Lean
constructor is named `IOError`. -/
inductive DNSError where
  | InvalidDomain : RStr → DNSError
  | RecordNotFound : RStr → DNSError
  | Network : RStr → DNSError
  | Protocol : RStr → DNSError
  | IOError : DNSError
  deriving DecidableEq, Repr

/-- `HashMap::get` on the record store. -/
def lookupRecords : List (RStr × List DNSRecord) → RStr → Option (List DNSRecord)
  | [], _ => none
  | (k, v) :: rest, name => if k = name then some v else lookupRecords rest name

/-- The record-scanning loop of `Vx0DNS::resolve_vx0_domain`: the first `A`
record whose data parses as an IP.  `parseIp` models
`str::parse::<IpAddr>` (standard-library code outside this repository). -/
def firstARecord (parseIp : RStr → Option IpAddr) : List DNSRecord → Option IpAddr
  | [] => none
  | r :: rest =>
      match r.record_type, parseIp r.data with
      | RecordType.A, some ip => some ip
      | _, _ => firstARecord parseIp rest

namespace Vx0DNS

/-- `Vx0DNS::query_distributed_dns`: stub returning the gateway address for
`vx0.network` only. -/
def query_distributed_dns (domain : RStr) : Option IpAddr :=
  if domain == vx0NetworkName then some (v4 10 0 1 1) else none

/-- `Vx0DNS::resolve_vx0_domain` (src/network/dns/mod.rs lines 134-155). -/
def resolve_vx0_domain (parseIp : RStr → Option IpAddr) (dns : Vx0DNS) (domain : RStr) :
    Option IpAddr :=
  if !rstrEndsWith domain dotVx0 && !(domain == vx0NetworkName) then none
  else
    match lookupRecords dns.records domain with
    | some records =>
        match firstARecord parseIp records with
        | some ip => some ip
        | none => query_distributed_dns domain
    | none => query_distributed_dns domain

end Vx0DNS

/-- `Vx0Resolver` (src/network/dns/resolver.rs). -/
structure Vx0Resolver where
  dns : Vx0DNS
  vx0_dns_servers : List RStr
  deriving DecidableEq, Repr

namespace Vx0Resolver

/-- `Vx0Resolver::query_vx0_network` (src/network/dns/resolver.rs lines
38-54): hardcoded test values. -/
def query_vx0_network (domain : RStr) : Except DNSError (Option IpAddr) :=
  if domain == vx0NetworkName then Except.ok (some (v4 10 0 1 1))
  else if domain == ("gateway.vx0").data then Except.ok (some (v4 10 0 0 1))
  else if domain == ("node1.vx0").data then Except.ok (some (v4 10 0 2 1))
  else if domain == ("node2.vx0").data then Except.ok (some (v4 10 0 2 2))
  else Except.ok none

/-- `Vx0Resolver::resolve` (src/network/dns/resolver.rs lines 19-36):
VX0 names go to the local store, then to the network stub; every other
name returns `Ok(None)` unconditionally. -/
def resolve (parseIp : RStr → Option IpAddr) (r : Vx0Resolver) (domain : RStr) :
    Except DNSError (Option IpAddr) :=
  if rstrEndsWith domain dotVx0 || domain == vx0NetworkName then
    match r.dns.resolve_vx0_domain parseIp domain with
    | some ip => Except.ok (some ip)
    | none => query_vx0_network domain
  else
    Except.ok none

end Vx0Resolver

/-! ## IKE sessions and tunnels (src/network/ike/mod.rs,
src/network/ike/session.rs, src/network/ike/tunnels.rs) -/

/-- `IKEState`. -/
inductive IKEState where
  | Initial
  | SaInit
  | Auth
  | Established
  | Rekeying
  | Deleted
  deriving DecidableEq, Repr

/-- `IKEError`. -/
inductive IKEError where
  | Crypto : RStr → IKEError
  | Protocol : RStr → IKEError
  | AuthenticationFailed : IKEError
  | Network : RStr → IKEError
  | Configuration : RStr → IKEError
  | IOError : IKEError
  deriving DecidableEq, Repr

/-- `IKESession`.  SPIs are `u64` values, key material is byte vectors
(`List Nat`, each byte < 256), `peer_addr` a socket address modelled as an
opaque `Nat`. -/
structure IKESession where
  local_spi : Nat
  remote_spi : Nat
  shared_secret : List Nat
  encryption_key : List Nat
  authentication_key : List Nat
  state : IKEState
  peer_addr : Nat
  dh_group : Nat
  deriving DecidableEq, Repr

namespace IKESession

/-- `IKESession::is_established`. -/
def is_established (s : IKESession) : Bool :=
  s.state == IKEState.Established

/-- `IKESession::encrypt_payload` (src/network/ike/session.rs lines
97-105): requires an established session, then returns the plaintext
unchanged (the source performs no encryption). -/
def encrypt_payload (s : IKESession) (plaintext : List Nat) : Except IKEError (List Nat) :=
  if !s.is_established then
    Except.error (IKEError.Protocol ("Session not established").data)
  else
    Except.ok plaintext

/-- `IKESession::decrypt_payload` (src/network/ike/session.rs lines
107-115): requires an established session, then returns the ciphertext
unchanged (the source performs no decryption or authentication). -/
def decrypt_payload (s : IKESession) (ciphertext : List Nat) : Except IKEError (List Nat) :=
  if !s.is_established then
    Except.error (IKEError.Protocol ("Session not established").data)
  else
    Except.ok ciphertext

end IKESession

/-- `TunnelStatus`. -/
inductive TunnelStatus where
  | Negotiating
  | Established
  | Rekeying
  | Failed
  | Closed
  deriving DecidableEq, Repr

/-- `TrafficStats`.  The counters are `u64`; wrap-around needs `2 ^ 64`
packets and is unreachable, so they are kept as plain `Nat`s. -/
structure TrafficStats where
  bytes_in : Nat
  bytes_out : Nat
  packets_in : Nat
  packets_out : Nat
  last_activity : Nat
  deriving DecidableEq, Repr

/-- `IPSecTunnel`.  `tunnel_id` is a `Uuid`, modelled as a `Nat`. -/
structure IPSecTunnel where
  tunnel_id : Nat
  local_addr : IpAddr
  remote_addr : IpAddr
  ike_session : IKESession
  status : TunnelStatus
  traffic_stats : TrafficStats
  created_at : Nat
  deriving DecidableEq, Repr

/-- `TunnelManager`: the tunnel registry, modelled as an association
list. -/
structure TunnelManager where
  tunnels : List (Nat × IPSecTunnel)
  deriving DecidableEq, Repr

/-- `HashMap::get` on the tunnel registry. -/
def lookupTunnel : List (Nat × IPSecTunnel) → Nat → Option IPSecTunnel
  | [], _ => none
  | (k, v) :: rest, id => if k = id then some v else lookupTunnel rest id

/-- In-place update through `HashMap::get_mut`: replace the first binding
of the key. -/
def updateTunnel : List (Nat × IPSecTunnel) → Nat → IPSecTunnel → List (Nat × IPSecTunnel)
  | [], _, _ => []
  | (k, v) :: rest, id, t => if k = id then (k, t) :: rest else (k, v) :: updateTunnel rest id t

namespace TunnelManager

/-- `TunnelManager::send_packet` (src/network/ike/tunnels.rs lines
104-131): requires `Established`, encrypts, updates the outbound
counters.  `now` models `chrono::Utc::now()`. -/
def send_packet (m : TunnelManager) (tunnel_id : Nat) (packet : List Nat) (now : Nat) :
    Except IKEError Unit × TunnelManager :=
  match lookupTunnel m.tunnels tunnel_id with
  | none => (Except.error (IKEError.Protocol ("Tunnel not found").data), m)
  | some tunnel =>
      if !(tunnel.status == TunnelStatus.Established) then
        (Except.error (IKEError.Protocol ("Tunnel not established").data), m)
      else
        match tunnel.ike_session.encrypt_payload packet with
        | Except.error e => (Except.error e, m)
        | Except.ok encrypted_packet =>
            let tunnel2 := { tunnel with traffic_stats :=
              { tunnel.traffic_stats with
                  bytes_out := tunnel.traffic_stats.bytes_out + encrypted_packet.length
                  packets_out := tunnel.traffic_stats.packets_out + 1
                  last_activity := now } }
            (Except.ok (), { m with tunnels := updateTunnel m.tunnels tunnel_id tunnel2 })

/-- The inbound traffic-stats update performed by `receive_packet`:
`bytes_in += len`, `packets_in += 1`, `last_activity = now`. -/
def bumpInbound (t : IPSecTunnel) (len now : Nat) : IPSecTunnel :=
  { t with traffic_stats :=
    { t.traffic_stats with
        bytes_in := t.traffic_stats.bytes_in + len
        packets_in := t.traffic_stats.packets_in + 1
        last_activity := now } }

/-- `TunnelManager::receive_packet` (src/network/ike/tunnels.rs lines
133-163): requires `Established`, decrypts, updates the inbound counters
and returns the decrypted bytes; on any error the stats are untouched. -/
def receive_packet (m : TunnelManager) (tunnel_id : Nat) (encrypted_packet : List Nat)
    (now : Nat) : Except IKEError (List Nat) × TunnelManager :=
  match lookupTunnel m.tunnels tunnel_id with
  | none => (Except.error (IKEError.Protocol ("Tunnel not found").data), m)
  | some tunnel =>
      if !(tunnel.status == TunnelStatus.Established) then
        (Except.error (IKEError.Protocol ("Tunnel not established").data), m)
      else
        match tunnel.ike_session.decrypt_payload encrypted_packet with
        | Except.error e => (Except.error e, m)
        | Except.ok decrypted_packet =>
            let tunnel2 := bumpInbound tunnel encrypted_packet.length now
            (Except.ok decrypted_packet,
             { m with tunnels := updateTunnel m.tunnels tunnel_id tunnel2 })

end TunnelManager

/-! ## BGP wire protocol (src/network/bgp/protocol.rs) -/

/-- `BGPMessageType`. -/
inductive BGPMessageType where
  | Open
  | Update
  | Keepalive
  | Notification
  deriving DecidableEq, Repr

/-- `BGPRoute` (the wire form of a route). -/
structure BGPRoute where
  network : IpNet
  next_hop : IpAddr
  as_path : List Nat
  origin : BGPOrigin
  local_pref : Nat
  med : Nat
  deriving DecidableEq, Repr

/-- `BGPMessage`. -/
structure BGPMessage where
  message_type : BGPMessageType
  asn : Nat
  router_id : IpAddr
  routes : List BGPRoute
  timestamp : Nat
  deriving DecidableEq, Repr

/-- `tokio::io::AsyncReadExt::read_u32`: four big-endian bytes from the
stream head.  A stream is a list of bytes (each < 256); reads that run off
the end of the available bytes are an I/O error. -/
def read_u32_be : List Nat → Option (Nat × List Nat)
  | b0 :: b1 :: b2 :: b3 :: rest => some (((b0 * 256 + b1) * 256 + b2) * 256 + b3, rest)
  | _ => none

/-- `read_exact` into a buffer of the given length. -/
def readExact : Nat → List Nat → Option (List Nat × List Nat)
  | 0, rest => some ([], rest)
  | _ + 1, [] => none
  | n + 1, b :: rest =>
      match readExact n rest with
      | some (buf, r) => some (b :: buf, r)
      | none => none

/-- `BGPProtocol::receive_message` (src/network/bgp/protocol.rs lines
251-266): read the 32-bit length prefix, reject lengths above 65,536 as a
protocol error before touching the payload, otherwise read the payload
and deserialize it.  `deserialize` models `serde_json::from_slice`
(library code outside this repository); a `None` result is the
`Serialization` error. -/
def receive_message (deserialize : List Nat → Option BGPMessage) (stream : List Nat) :
    Except BGPError BGPMessage :=
  match read_u32_be stream with
  | none => Except.error BGPError.IOError
  | some (length, rest) =>
      if length > 65536 then
        Except.error (BGPError.Protocol ("Message too large").data)
      else
        match readExact length rest with
        | none => Except.error BGPError.IOError
        | some (buffer, _) =>
            match deserialize buffer with
            | some msg => Except.ok msg
            | none => Except.error BGPError.Serialization

/-! ## Helper lemmas -/

theorem removeRoute_fst (l : List (IpNet × RouteEntry)) (k : IpNet) :
    (removeRoute l k).1 = lookupRoute l k := by
  induction l with
  | nil => rfl
  | cons p rest ih =>
    obtain ⟨k0, v0⟩ := p
    by_cases h : k0 = k <;> simp [removeRoute, lookupRoute, h, ih]

theorem removeRoute_of_absent (l : List (IpNet × RouteEntry)) (k : IpNet)
    (h : lookupRoute l k = none) : removeRoute l k = (none, l) := by
  induction l with
  | nil => rfl
  | cons p rest ih =>
    obtain ⟨k0, v0⟩ := p
    by_cases hk : k0 = k
    · simp [lookupRoute, hk] at h
    · simp only [lookupRoute, if_neg hk] at h
      simp [removeRoute, hk, ih h]

theorem find_best_route_loop_spec (destination : IpAddr) (l : List (IpNet × RouteEntry))
    (best : Option RouteEntry) (bestLen : Nat) :
    (RouteTable.find_best_route_loop destination l (best, bestLen) = (best, bestLen)
      ∧ ∀ p ∈ l, p.1.contains destination = true → p.1.prefix_len ≤ bestLen)
    ∨ (∃ network route, (network, route) ∈ l
        ∧ RouteTable.find_best_route_loop destination l (best, bestLen) =
            (some route, network.prefix_len)
        ∧ network.contains destination = true
        ∧ bestLen < network.prefix_len
        ∧ ∀ p ∈ l, p.1.contains destination = true → p.1.prefix_len ≤ network.prefix_len) := by
  induction l generalizing best bestLen with
  | nil => exact Or.inl ⟨rfl, by simp⟩
  | cons hd rest ih =>
    obtain ⟨network, route⟩ := hd
    by_cases hc : network.contains destination = true
    · by_cases hl : network.prefix_len > bestLen
      · have hstep : RouteTable.find_best_route_loop destination ((network, route) :: rest)
            (best, bestLen) =
            RouteTable.find_best_route_loop destination rest (some route, network.prefix_len) := by
          simp [RouteTable.find_best_route_loop, hc, hl]
        rcases ih (some route) network.prefix_len with ⟨heq, hbound⟩ |
            ⟨n2, r2, hmem, heq, hc2, hlt, hbound⟩
        · refine Or.inr ⟨network, route, by simp, by rw [hstep, heq], hc, hl, ?_⟩
          intro p hp hcp
          rcases List.mem_cons.mp hp with hp | hp
          · subst hp; exact Nat.le_refl _
          · exact hbound p hp hcp
        · refine Or.inr ⟨n2, r2, List.mem_cons_of_mem _ hmem, by rw [hstep, heq], hc2,
            Nat.lt_trans hl hlt, ?_⟩
          intro p hp hcp
          rcases List.mem_cons.mp hp with hp | hp
          · subst hp; exact Nat.le_of_lt hlt
          · exact hbound p hp hcp
      · have hstep : RouteTable.find_best_route_loop destination ((network, route) :: rest)
            (best, bestLen) =
            RouteTable.find_best_route_loop destination rest (best, bestLen) := by
          simp [RouteTable.find_best_route_loop, hc, hl]
        have hle : network.prefix_len ≤ bestLen := Nat.le_of_not_lt hl
        rcases ih best bestLen with ⟨heq, hbound⟩ | ⟨n2, r2, hmem, heq, hc2, hlt, hbound⟩
        · refine Or.inl ⟨by rw [hstep, heq], ?_⟩
          intro p hp hcp
          rcases List.mem_cons.mp hp with hp | hp
          · subst hp; exact hle
          · exact hbound p hp hcp
        · refine Or.inr ⟨n2, r2, List.mem_cons_of_mem _ hmem, by rw [hstep, heq], hc2, hlt, ?_⟩
          intro p hp hcp
          rcases List.mem_cons.mp hp with hp | hp
          · subst hp; exact Nat.le_trans hle (Nat.le_of_lt hlt)
          · exact hbound p hp hcp
    · have hstep : RouteTable.find_best_route_loop destination ((network, route) :: rest)
          (best, bestLen) =
          RouteTable.find_best_route_loop destination rest (best, bestLen) := by
        simp [RouteTable.find_best_route_loop, hc]
      rcases ih best bestLen with ⟨heq, hbound⟩ | ⟨n2, r2, hmem, heq, hc2, hlt, hbound⟩
      · refine Or.inl ⟨by rw [hstep, heq], ?_⟩
        intro p hp hcp
        rcases List.mem_cons.mp hp with hp | hp
        · subst hp; exact absurd hcp hc
        · exact hbound p hp hcp
      · refine Or.inr ⟨n2, r2, List.mem_cons_of_mem _ hmem, by rw [hstep, heq], hc2, hlt, ?_⟩
        intro p hp hcp
        rcases List.mem_cons.mp hp with hp | hp
        · subst hp; exact absurd hcp hc
        · exact hbound p hp hcp

/-! ## Concrete inputs used by counterexamples and witnesses -/

/-- A Backbone routing policy (local ASN 65001), whose route policy is
`FullTable`. -/
def c1Policy : RoutingPolicy := RoutingPolicy.new 65001 NodeTier.Backbone

/-- A route whose as_path contains the local ASN 65001. -/
def c1Route : RouteEntry :=
  { network := IpNet.V4 { addr := 10 * 2 ^ 24, prefix_len := 24 }
    next_hop := v4 192 168 1 1
    as_path := [65001, 65002]
    origin := BGPOrigin.IGP
    local_pref := 100
    med := 0
    communities := []
    timestamp := 0 }

/-- An Edge routing policy for the C7 inputs. -/
def c7Policy : RoutingPolicy := RoutingPolicy.new 66001 NodeTier.Edge

/-- A route with an empty as_path. -/
def c7Route : RouteEntry :=
  { network := IpNet.V4 { addr := 10 * 2 ^ 24, prefix_len := 24 }
    next_hop := v4 192 168 1 1
    as_path := []
    origin := BGPOrigin.IGP
    local_pref := 100
    med := 0
    communities := []
    timestamp := 0 }

/-- Modelled from the spec: the best-path score
`local_pref + floor (100 / max 1 (length as_path)) + origin bonus`
as the specification text states it, for comparison against
`evaluate_route`. -/
def specScore (route : RouteEntry) : Nat :=
  route.local_pref + 100 / max 1 route.as_path.length +
    (match route.origin with
     | BGPOrigin.IGP => 10
     | BGPOrigin.EGP => 5
     | BGPOrigin.Incomplete => 0)

/-- An Edge node with no peers (scenario E1 of the spec). -/
def c5Node : Vx0Node := { node_id := 1, asn := 66001, tier := NodeTier.Edge, peers := [] }

/-- An Edge peer (ASN 66002) for the rejection case. -/
def c5Peer : PeerConnection :=
  { peer_id := 2
    peer_asn := 66002
    peer_addr := v4 10 0 0 2
    status := ConnectionStatus.Connecting
    metrics := { latency_ms := 0, packet_loss := 0, bytes_sent := 0, bytes_received := 0,
                 routes_advertised := 0, routes_received := 0 }
    last_seen := 0 }

/-- A Regional peer (ASN 65101) for the acceptance case. -/
def c5PeerRegional : PeerConnection :=
  { peer_id := 3
    peer_asn := 65101
    peer_addr := v4 10 0 0 3
    status := ConnectionStatus.Connecting
    metrics := { latency_ms := 0, packet_loss := 0, bytes_sent := 0, bytes_received := 0,
                 routes_advertised := 0, routes_received := 0 }
    last_seen := 0 }

/-- The network `10.0.0.0/8` as a table key. -/
def c6Net : IpNet := IpNet.V4 { addr := 10 * 2 ^ 24, prefix_len := 8 }

/-- A key not present in the C6 table. -/
def c6Absent : IpNet := IpNet.V4 { addr := 0, prefix_len := 0 }

/-- A route entry stored under `c6Net`. -/
def c6Entry : RouteEntry :=
  { network := c6Net
    next_hop := v4 10 0 0 1
    as_path := [65001]
    origin := BGPOrigin.IGP
    local_pref := 100
    med := 0
    communities := []
    timestamp := 0 }

/-- A route table holding exactly `c6Net ↦ c6Entry`, at version 3. -/
def c6Table : RouteTable := { routes := [(c6Net, c6Entry)], version := 3 }

/-- An established key-agreement session. -/
def c4Session : IKESession :=
  { local_spi := 1
    remote_spi := 2
    shared_secret := []
    encryption_key := []
    authentication_key := []
    state := IKEState.Established
    peer_addr := 0
    dh_group := 14 }

/-- An established tunnel (id 7) with zeroed traffic counters. -/
def c4Tunnel : IPSecTunnel :=
  { tunnel_id := 7
    local_addr := v4 10 0 0 1
    remote_addr := v4 10 0 0 2
    ike_session := c4Session
    status := TunnelStatus.Established
    traffic_stats := { bytes_in := 0, bytes_out := 0, packets_in := 0, packets_out := 0,
                       last_activity := 0 }
    created_at := 0 }

/-- A tunnel manager holding exactly tunnel 7. -/
def c4Manager : TunnelManager := { tunnels := [(7, c4Tunnel)] }

/-- A default-route entry stored under `0.0.0.0/0`. -/
def c10Entry : RouteEntry :=
  { network := RoutingPolicy.defaultNet
    next_hop := v4 10 0 0 1
    as_path := [65000]
    origin := BGPOrigin.IGP
    local_pref := 100
    med := 0
    communities := []
    timestamp := 0 }

/-- A route table holding only the default route `0.0.0.0/0`. -/
def c10Table : RouteTable := { routes := [(RoutingPolicy.defaultNet, c10Entry)], version := 1 }

/-! ## Claim theorems -/

/-- Claim C1 counterexample: with a `FullTable` policy `should_accept_route`
returns `true` even for a route whose as_path contains the local ASN, so the
claimed "accept iff local ASN not in as_path" is false at this input. -/
theorem c1_counterexample :
    c1Policy.route_policy = RoutePolicy.FullTable
    ∧ c1Policy.local_asn ∈ c1Route.as_path
    ∧ c1Policy.should_accept_route c1Route 65002 = true := by
  decide

/-- Claim C1 (amended): for a node whose route policy is `FullTable`,
`should_accept_route` returns `true` for every route and every peer ASN,
with no loop check on the as_path. -/
theorem full_table_accepts_all (p : RoutingPolicy) (route : RouteEntry) (peer_asn : Nat)
    (h : p.route_policy = RoutePolicy.FullTable) :
    p.should_accept_route route peer_asn = true := by
  simp [RoutingPolicy.should_accept_route, h]

/-- Witness for `full_table_accepts_all` at the concrete C1 inputs. -/
theorem full_table_accepts_all_witness :
    c1Policy.should_accept_route c1Route 65002 = true :=
  full_table_accepts_all c1Policy c1Route 65002 rfl

/-- Claim C2: for every name that does not end in `.vx0` and is not
`vx0.network`, `resolve` returns `Ok(None)`, whatever the record store and
the IP parser do. -/
theorem resolve_non_vx0_none (parseIp : RStr → Option IpAddr) (r : Vx0Resolver) (domain : RStr)
    (h1 : rstrEndsWith domain dotVx0 = false) (h2 : domain ≠ vx0NetworkName) :
    r.resolve parseIp domain = Except.ok none := by
  simp [Vx0Resolver.resolve, h1, h2]

/-- Witness for `resolve_non_vx0_none` at `"google.com"` against an empty
resolver. -/
theorem resolve_non_vx0_none_witness :
    Vx0Resolver.resolve (fun _ => none)
      { dns := { zones := [], records := [] }, vx0_dns_servers := [] }
      ("google.com").data = Except.ok none :=
  resolve_non_vx0_none (fun _ => none) _ _ (by decide) (by decide)

/-- Claim C3: `find_best_route` returns `None` or a stored entry whose
prefix contains the destination, and no stored prefix containing the
destination is strictly longer than the returned one. -/
theorem find_best_route_lpm (t : RouteTable) (destination : IpAddr) :
    t.find_best_route destination = none
    ∨ ∃ network route, (network, route) ∈ t.routes
        ∧ t.find_best_route destination = some route
        ∧ network.contains destination = true
        ∧ ∀ p ∈ t.routes, p.1.contains destination = true →
            p.1.prefix_len ≤ network.prefix_len := by
  rcases find_best_route_loop_spec destination t.routes none 0 with ⟨heq, _⟩ |
      ⟨n, r, hmem, heq, hc, _, hbound⟩
  · exact Or.inl (by simp [RouteTable.find_best_route, heq])
  · exact Or.inr ⟨n, r, hmem, by simp [RouteTable.find_best_route, heq], hc, hbound⟩

/-- Claim C4 counterexample: on an established tunnel, receiving a
ciphertext with one byte flipped does not return `AuthenticationFailed`; it
succeeds, returns the flipped bytes, and increments the inbound packet
counter.  (`encrypt_payload` is the identity, so `[105, 105]` is a one-byte
flip of the ciphertext `[104, 105]` produced for plaintext `[104, 105]`.) -/
theorem c4_counterexample :
    c4Session.encrypt_payload [104, 105] = Except.ok [104, 105]
    ∧ (c4Manager.receive_packet 7 [105, 105] 5).1 = Except.ok [105, 105]
    ∧ (c4Manager.receive_packet 7 [105, 105] 5).1 ≠ Except.error IKEError.AuthenticationFailed
    ∧ (lookupTunnel (c4Manager.receive_packet 7 [105, 105] 5).2.tunnels 7).map
        (fun t => t.traffic_stats.packets_in) = some 1 := by
  refine ⟨rfl, rfl, ?_, rfl⟩
  have hres : (c4Manager.receive_packet 7 [105, 105] 5).1 = Except.ok [105, 105] := rfl
  rw [hres]
  simp

/-- Claim C4 (amended): on a tunnel in status `Established` whose session is
established, `encrypt_payload` and the receive path are the identity: the
ciphertext produced by send is the plaintext itself, `receive_packet`
returns exactly the ciphertext bytes it is given — the flipped-byte case
included — and increments (bytes_in, packets_in) and refreshes
last_activity.  No authentication is performed. -/
theorem receive_packet_identity (m : TunnelManager) (id : Nat) (pkt : List Nat) (now : Nat)
    (t : IPSecTunnel)
    (h1 : lookupTunnel m.tunnels id = some t)
    (h2 : t.status = TunnelStatus.Established)
    (h3 : t.ike_session.state = IKEState.Established) :
    t.ike_session.encrypt_payload pkt = Except.ok pkt
    ∧ m.receive_packet id pkt now =
        (Except.ok pkt,
         { m with tunnels := updateTunnel m.tunnels id (TunnelManager.bumpInbound t pkt.length now) }) := by
  constructor
  · simp [IKESession.encrypt_payload, IKESession.is_established, h3]
  · simp [TunnelManager.receive_packet, h1, h2, IKESession.decrypt_payload,
      IKESession.is_established, h3]

/-- Witness for `receive_packet_identity` on the concrete tunnel 7. -/
theorem receive_packet_identity_witness :
    (c4Manager.receive_packet 7 [1, 2] 3).1 = Except.ok [1, 2] := by
  have h := receive_packet_identity c4Manager 7 [1, 2] 3 c4Tunnel rfl rfl rfl
  rw [h.2]

/-- Claim C5: `add_peer` returns a `Network` error, leaving the node
unchanged, exactly when the peer count has reached the tier limit or the
peering matrix forbids the tier pair; otherwise it inserts the peer into
the peer map. -/
theorem add_peer_spec (n : Vx0Node) (peer : PeerConnection) :
    (n.get_peer_count ≥ n.tier.max_peers
        ∨ n.tier.can_peer_with (Vx0Node.asn_to_tier peer.peer_asn) = false →
      ∃ s, n.add_peer peer = (Except.error (NodeError.Network s), n))
    ∧ (n.get_peer_count < n.tier.max_peers →
        n.tier.can_peer_with (Vx0Node.asn_to_tier peer.peer_asn) = true →
        n.add_peer peer =
          (Except.ok (), { n with peers := insertPeer n.peers peer.peer_id peer })) := by
  constructor
  · intro h
    by_cases hc : n.get_peer_count ≥ n.tier.max_peers
    · refine ⟨("Maximum peer limit reached for ").data ++ tierDebug n.tier ++ (" tier (").data ++
        (Nat.repr n.get_peer_count).data ++ ("/").data ++ (Nat.repr n.tier.max_peers).data ++
        (")").data, ?_⟩
      simp [Vx0Node.add_peer, hc]
    · have hp : n.tier.can_peer_with (Vx0Node.asn_to_tier peer.peer_asn) = false := by
        tauto
      refine ⟨tierDebug n.tier ++ (" nodes cannot peer with ").data ++
        tierDebug (Vx0Node.asn_to_tier peer.peer_asn) ++ (" nodes").data, ?_⟩
      simp [Vx0Node.add_peer, hc, hp]
  · intro h1 h2
    simp [Vx0Node.add_peer, Nat.not_le.mpr h1, h2]

/-- Witness for `add_peer_spec`: Edge–Edge peering is rejected with the peer
map unchanged, and Edge–Regional peering is inserted. -/
theorem add_peer_spec_witness :
    (∃ s, c5Node.add_peer c5Peer = (Except.error (NodeError.Network s), c5Node))
    ∧ c5Node.add_peer c5PeerRegional =
        (Except.ok (),
         { c5Node with peers := insertPeer c5Node.peers c5PeerRegional.peer_id c5PeerRegional }) :=
  ⟨(add_peer_spec c5Node c5Peer).1 (Or.inr (by decide)),
   (add_peer_spec c5Node c5PeerRegional).2 (by decide) (by decide)⟩

/-- Claim C6: `add_route` always increments the version; `remove_route` on a
present prefix removes and returns the prior entry and increments the
version; `remove_route` on an absent prefix returns `None` and leaves the
table (version included) unchanged. -/
theorem route_table_version_spec (t : RouteTable) (route : RouteEntry) (network : IpNet) :
    (t.add_route route).2.version = t.version + 1
    ∧ (∀ e, lookupRoute t.routes network = some e →
        t.remove_route network =
          (some e, { routes := (removeRoute t.routes network).2, version := t.version + 1 }))
    ∧ (lookupRoute t.routes network = none → t.remove_route network = (none, t)) := by
  refine ⟨rfl, ?_, ?_⟩
  · intro e he
    have h1 : (removeRoute t.routes network).1 = some e := by rw [removeRoute_fst]; exact he
    simp [RouteTable.remove_route, h1]
  · intro h
    have h2 := removeRoute_of_absent t.routes network h
    simp [RouteTable.remove_route, h2]

/-- Witness for `route_table_version_spec` on the one-entry table
`c6Table`: adding bumps the version, removing the present key returns the
entry and bumps the version, removing an absent key changes nothing. -/
theorem route_table_version_spec_witness :
    (c6Table.add_route c6Entry).2.version = 4
    ∧ c6Table.remove_route c6Net = (some c6Entry, { routes := [], version := 4 })
    ∧ c6Table.remove_route c6Absent = (none, c6Table) := by
  refine ⟨?_, ?_, ?_⟩
  · have h := (route_table_version_spec c6Table c6Entry c6Net).1
    simpa using h
  · have h := (route_table_version_spec c6Table c6Entry c6Net).2.1 c6Entry (by decide)
    simpa [c6Table, removeRoute, c6Net, c6Entry] using h
  · exact (route_table_version_spec c6Table c6Entry c6Absent).2.2 (by decide)

/-- Claim C7 counterexample: for a route with an empty as_path the code adds
no path term at all, while the claimed formula adds `100 / max 1 0 = 100`:
`evaluate_route` yields 110 where the claim demands 210. -/
theorem c7_counterexample :
    c7Route.as_path = []
    ∧ c7Policy.evaluate_route c7Route = 110
    ∧ specScore c7Route = 210
    ∧ c7Policy.evaluate_route c7Route ≠ specScore c7Route := by
  decide

/-- Claim C7 (amended): `evaluate_route` equals
`local_pref + ⌊100 / |as_path|⌋ + origin bonus` when the as_path is
nonempty, and `local_pref + origin bonus` (no path term) when it is empty,
whenever the `u32` sum does not overflow. -/
theorem evaluate_route_formula (p : RoutingPolicy) (route : RouteEntry)
    (h : route.local_pref + 110 < 2 ^ 32) :
    p.evaluate_route route =
      route.local_pref +
        (if route.as_path.isEmpty then 0 else 100 / route.as_path.length) +
        (match route.origin with
         | BGPOrigin.IGP => 10
         | BGPOrigin.EGP => 5
         | BGPOrigin.Incomplete => 0) := by
  obtain ⟨net, nh, path, origin, lp, med1, comm, ts⟩ := route
  have h32 : (2 : Nat) ^ 32 = 4294967296 := by norm_num
  rw [h32] at h
  obtain ⟨d, hd, hdle⟩ : ∃ d, 100 / path.length = d ∧ d ≤ 100 :=
    ⟨_, rfl, Nat.div_le_self _ _⟩
  simp only at h ⊢
  cases origin <;> cases hA : path.isEmpty <;>
    simp [RoutingPolicy.evaluate_route, hA, h32, hd] <;> omega

/-- Witness for `evaluate_route_formula` on the empty-as_path route. -/
theorem evaluate_route_formula_witness :
    c7Policy.evaluate_route c7Route = 110 := by
  have h := evaluate_route_formula c7Policy c7Route (by norm_num [c7Route])
  simpa [c7Route] using h

/-- Claim C8: the peering matrix is symmetric, Edge–Edge and Backbone–Edge
are forbidden in both directions, and Regional–Edge is allowed in both
directions. -/
theorem can_peer_with_symmetric :
    (∀ a b : NodeTier, a.can_peer_with b = b.can_peer_with a)
    ∧ NodeTier.can_peer_with NodeTier.Edge NodeTier.Edge = false
    ∧ NodeTier.can_peer_with NodeTier.Backbone NodeTier.Edge = false
    ∧ NodeTier.can_peer_with NodeTier.Edge NodeTier.Backbone = false
    ∧ NodeTier.can_peer_with NodeTier.Regional NodeTier.Edge = true
    ∧ NodeTier.can_peer_with NodeTier.Edge NodeTier.Regional = true := by
  refine ⟨?_, rfl, rfl, rfl, rfl, rfl⟩
  intro a b
  cases a <;> cases b <;> rfl

/-- Claim C9: `receive_message` rejects every frame whose 32-bit length
prefix exceeds 65,536 with the `Protocol` "Message too large" error — for
every deserializer and whatever bytes follow the prefix — and never
produces that error when the length prefix is at most 65,536. -/
theorem receive_message_size_limit (deserialize : List Nat → Option BGPMessage)
    (b0 b1 b2 b3 : Nat) (rest : List Nat) :
    (65536 < ((b0 * 256 + b1) * 256 + b2) * 256 + b3 →
      receive_message deserialize (b0 :: b1 :: b2 :: b3 :: rest) =
        Except.error (BGPError.Protocol ("Message too large").data))
    ∧ (((b0 * 256 + b1) * 256 + b2) * 256 + b3 ≤ 65536 →
      receive_message deserialize (b0 :: b1 :: b2 :: b3 :: rest) ≠
        Except.error (BGPError.Protocol ("Message too large").data)) := by
  constructor
  · intro h
    simp [receive_message, read_u32_be, h]
  · intro h
    simp only [receive_message, read_u32_be]
    rw [if_neg (by omega)]
    rcases hre : readExact (((b0 * 256 + b1) * 256 + b2) * 256 + b3) rest with _ | ⟨buf, r⟩
    · simp
    · rcases hd : deserialize buf with _ | msg <;> simp [hd]

/-- Witness for `receive_message_size_limit`: a frame of declared length
65,537 is rejected, one of length 65,536 is not rejected by the size
check. -/
theorem receive_message_size_limit_witness :
    receive_message (fun _ => none) (0 :: 1 :: 0 :: 1 :: []) =
      Except.error (BGPError.Protocol ("Message too large").data)
    ∧ receive_message (fun _ => none) (0 :: 1 :: 0 :: 0 :: []) ≠
      Except.error (BGPError.Protocol ("Message too large").data) :=
  ⟨(receive_message_size_limit (fun _ => none) 0 1 0 1 []).1 (by norm_num),
   (receive_message_size_limit (fun _ => none) 0 1 0 0 []).2 (by norm_num)⟩

/-- Claim C10: when every stored prefix containing the destination has
prefix length 0 (for instance a table holding only `0.0.0.0/0`),
`find_best_route` returns `None`, because the search starts at
`best_prefix_len = 0` and demands a strictly greater prefix length. -/
theorem find_best_route_zero_len_none (t : RouteTable) (destination : IpAddr)
    (h : ∀ p ∈ t.routes, p.1.contains destination = true → p.1.prefix_len = 0) :
    t.find_best_route destination = none := by
  rcases find_best_route_loop_spec destination t.routes none 0 with ⟨heq, _⟩ |
      ⟨n, r, hmem, heq, hc, hlt, _⟩
  · simp [RouteTable.find_best_route, heq]
  · have h0 : n.prefix_len = 0 := h (n, r) hmem hc
    omega

/-- Witness for `find_best_route_zero_len_none`: a table holding only the
default route `0.0.0.0/0` yields `None` for `10.1.2.3`. -/
theorem find_best_route_zero_len_none_witness :
    c10Table.find_best_route (v4 10 1 2 3) = none :=
  find_best_route_zero_len_none c10Table (v4 10 1 2 3) (by decide)

end Vx0
